import Mathlib

/-!
# Verification of the proofcart escrow programs

Shallow embedding of the two Solana/Anchor escrow program variants of this
repository:

* `EscrowA` embeds `src/solana-escrow/programs/escrow/src/lib.rs`
  (module `escrow`): funds move into custody during `create_escrow`, and the
  record offers `release_escrow`, `refund_escrow` and `dispute_escrow`.
* `EscrowB` embeds `src/blockchain/solana-escrow/src/lib.rs`
  (module `proofcart_escrow`): `create_escrow` only records intent, and the
  record offers `confirm_delivery`, `lock_dispute`, `resolve_refund` and
  `resolve_release`.

Modelling conventions:

* `Pubkey` is an opaque identity (`Nat`).
* Rust `String` order ids are modelled as their byte lists (`List Nat`);
  only length and identity of the bytes matter to the programs.
* `u64` amounts and balances are `Nat` (the programs only copy and transfer
  amounts, never perform arithmetic that could wrap).
* `i64` timestamps are `Int`; `Clock::get()?.unix_timestamp` is passed in as
  a `now : Int` argument.
* Each instruction handler becomes a pure function on
  `(Escrow × Nat) : record × custody balance`.  The `Nat` component tracks
  the escrowed value sitting in the program-derived custody account, as
  moved by the program's own transfer CPIs (custody starts at zero; an
  inbound transfer adds the amount, an outbound transfer subtracts it).
* An Anchor `require!(cond, Err)` becomes an `if` returning the error;
  the result of the `token::transfer(..)? / system_program::transfer(..)?`
  CPI is an explicit `tr : Except TransferError Unit` argument, and its
  error is propagated exactly as `?` does.  Mutations of the escrow account
  are applied in source order, and the function returns the state
  accumulated up to the first failure, so an error result carries exactly
  the writes the handler performed before failing (for the handlers below,
  none occur before the transfer).
* Anchor account (de)serialization is not interposed on each handler; the
  `Escrow.LEN` space constants and the Borsh serialized size of a record
  are embedded as standalone definitions (`Escrow.LEN`, `serializedSize`)
  so that the length bound they induce can be analysed.
* Account allocation (`init`) fails when a record already exists for the
  order id, so re-creation is not an available step on an existing record;
  the step relations below therefore start from a freshly created record
  and step only through the four mutating handlers.
-/

/-- Opaque ledger identity (Anchor `Pubkey`). -/
abbrev Pubkey := Nat

/-- Opaque cause carried by a failed transfer CPI. -/
abbrev TransferError := Nat

namespace EscrowA

/-- `EscrowState` of `src/solana-escrow/programs/escrow/src/lib.rs`. -/
inductive EscrowState
  | Created
  | Locked
  | Released
  | Refunded
  | Disputed
deriving DecidableEq

/-- `EscrowError` of variant A: the two program error codes. -/
inductive EscrowError
  | InvalidState
  | Unauthorized
deriving DecidableEq

/-- Result error of a variant-A instruction: a program error code, or the
propagated error of the transfer CPI. -/
inductive ProgramError
  | program (e : EscrowError)
  | transfer (e : TransferError)
deriving DecidableEq

/-- The `Escrow` account of variant A.  Its only optional timestamp field is
`released_at`; there is no `locked_at` and no `resolved_at`. -/
structure Escrow where
  buyer : Pubkey
  seller : Pubkey
  order_id : List Nat
  amount : Nat
  state : EscrowState
  bump : Nat
  created_at : Int
  released_at : Option Int
deriving DecidableEq

/-- `Escrow::LEN` of variant A: `32 + 32 + (4 + 50) + 8 + 1 + 1 + 8 + (1 + 8)`. -/
def Escrow.LEN : Nat := 32 + 32 + (4 + 50) + 8 + 1 + 1 + 8 + (1 + 8)

/-- Borsh serialized size of a variant-A record: fixed fields, a
length-prefixed string, and `1` or `1 + 8` bytes for the `Option<i64>`. -/
def serializedSize (e : Escrow) : Nat :=
  32 + 32 + (4 + e.order_id.length) + 8 + 1 + 1 + 8 +
    (match e.released_at with
     | none => 1
     | some _ => 1 + 8)

/-- `create_escrow` of variant A: populate the record (`state = Created`),
transfer `amount` from the buyer into custody, then set `state = Locked`.
If the inbound transfer fails, `?` aborts the instruction and `init` is
rolled back, so no record (and no custody) exists. -/
def create_escrow (buyer seller : Pubkey) (order_id : List Nat)
    (amount bump : Nat) (tr : Except TransferError Unit) (now : Int) :
    Except ProgramError (Escrow × Nat) :=
  let escrow : Escrow :=
    { buyer := buyer, seller := seller, order_id := order_id,
      amount := amount, state := EscrowState.Created, bump := bump,
      created_at := now, released_at := none }
  match tr with
  | Except.error e => Except.error (ProgramError.transfer e)
  | Except.ok _ =>
      Except.ok ({ escrow with state := EscrowState.Locked }, amount)

/-- `release_escrow` of variant A: require `state == Locked`, require the
buyer signed, transfer `amount` from custody to the seller, then set
`state = Released` and `released_at`. -/
def release_escrow (escrow : Escrow) (custody : Nat) (buyer : Pubkey)
    (tr : Except TransferError Unit) (now : Int) :
    (Escrow × Nat) × Option ProgramError :=
  if escrow.state = EscrowState.Locked then
    if escrow.buyer = buyer then
      match tr with
      | Except.error e => ((escrow, custody), some (ProgramError.transfer e))
      | Except.ok _ =>
          (({ escrow with
              state := EscrowState.Released,
              released_at := some now }, custody - escrow.amount), none)
    else ((escrow, custody), some (ProgramError.program EscrowError.Unauthorized))
  else ((escrow, custody), some (ProgramError.program EscrowError.InvalidState))

/-- `refund_escrow` of variant A: require `state ∈ {Locked, Disputed}`,
require the signer to be the seller or the buyer (the source's authority
check, which admits the buyer in either allowed state), transfer `amount`
from custody back to the buyer, then set `state = Refunded`.  No timestamp
field is written. -/
def refund_escrow (escrow : Escrow) (custody : Nat) (authority : Pubkey)
    (tr : Except TransferError Unit) :
    (Escrow × Nat) × Option ProgramError :=
  if escrow.state = EscrowState.Locked ∨ escrow.state = EscrowState.Disputed then
    if escrow.seller = authority ∨ authority = escrow.buyer then
      match tr with
      | Except.error e => ((escrow, custody), some (ProgramError.transfer e))
      | Except.ok _ =>
          (({ escrow with state := EscrowState.Refunded },
            custody - escrow.amount), none)
    else ((escrow, custody), some (ProgramError.program EscrowError.Unauthorized))
  else ((escrow, custody), some (ProgramError.program EscrowError.InvalidState))

/-- `dispute_escrow` of variant A: require `state == Locked`, require the
signer to be the buyer or the seller, then set `state = Disputed`.  No fund
movement and no timestamp. -/
def dispute_escrow (escrow : Escrow) (custody : Nat) (authority : Pubkey) :
    (Escrow × Nat) × Option ProgramError :=
  if escrow.state = EscrowState.Locked then
    if escrow.buyer = authority ∨ escrow.seller = authority then
      (({ escrow with state := EscrowState.Disputed }, custody), none)
    else ((escrow, custody), some (ProgramError.program EscrowError.Unauthorized))
  else ((escrow, custody), some (ProgramError.program EscrowError.InvalidState))

/-- A mutating instruction of variant A on an existing record, with its
caller-supplied inputs. -/
inductive Op
  | release (buyer : Pubkey) (tr : Except TransferError Unit) (now : Int)
  | refund (authority : Pubkey) (tr : Except TransferError Unit)
  | dispute (authority : Pubkey)

/-- Run one variant-A instruction against a record/custody pair. -/
def applyOp (s : Escrow × Nat) : Op → (Escrow × Nat) × Option ProgramError
  | Op.release b tr now => release_escrow s.1 s.2 b tr now
  | Op.refund a tr => refund_escrow s.1 s.2 a tr
  | Op.dispute a => dispute_escrow s.1 s.2 a

/-- States reachable by a successful creation followed by any sequence of
successful variant-A instructions. -/
inductive Reach : Escrow × Nat → Prop
  | create (buyer seller : Pubkey) (order_id : List Nat) (amount bump : Nat)
      (tr : Except TransferError Unit) (now : Int) (s : Escrow × Nat)
      (h : create_escrow buyer seller order_id amount bump tr now = Except.ok s) :
      Reach s
  | step (s s' : Escrow × Nat) (op : Op) (h1 : Reach s)
      (h2 : applyOp s op = (s', none)) : Reach s'

/-- Zero or more successful variant-A instructions. -/
inductive Steps : Escrow × Nat → Escrow × Nat → Prop
  | refl (s : Escrow × Nat) : Steps s s
  | tail (s t u : Escrow × Nat) (op : Op) (h1 : Steps s t)
      (h2 : applyOp t op = (u, none)) : Steps s u

end EscrowA

namespace EscrowB

/-- `EscrowStatus` of `src/blockchain/solana-escrow/src/lib.rs`.  Note that
this variant has no `Disputed` status. -/
inductive EscrowStatus
  | Created
  | Locked
  | Released
  | Refunded
deriving DecidableEq

/-- `EscrowError` of variant B: the four program error codes. -/
inductive EscrowError
  | UnauthorizedBuyer
  | InvalidEscrowStatus
  | EscrowNotLocked
  | InsufficientFunds
deriving DecidableEq

/-- Result error of a variant-B instruction: a program error code, or the
propagated error of the transfer CPI. -/
inductive ProgramError
  | program (e : EscrowError)
  | transfer (e : TransferError)
deriving DecidableEq

/-- The `Escrow` account of variant B, with its three optional timestamps. -/
structure Escrow where
  buyer : Pubkey
  seller : Pubkey
  order_id : List Nat
  amount : Nat
  status : EscrowStatus
  bump : Nat
  created_at : Int
  locked_at : Option Int
  released_at : Option Int
  resolved_at : Option Int
deriving DecidableEq

/-- `Escrow::LEN` of variant B:
`32 + 32 + (4 + 50) + 8 + 1 + 1 + 8 + (1 + 8) + (1 + 8) + (1 + 8)`. -/
def Escrow.LEN : Nat :=
  32 + 32 + (4 + 50) + 8 + 1 + 1 + 8 + (1 + 8) + (1 + 8) + (1 + 8)

/-- Borsh serialized size of a variant-B record. -/
def serializedSize (e : Escrow) : Nat :=
  32 + 32 + (4 + e.order_id.length) + 8 + 1 + 1 + 8 +
    (match e.locked_at with
     | none => 1
     | some _ => 1 + 8) +
    (match e.released_at with
     | none => 1
     | some _ => 1 + 8) +
    (match e.resolved_at with
     | none => 1
     | some _ => 1 + 8)

/-- `create_escrow` of variant B: populate the record with
`status = Created` and log.  No funds are moved by the program, so the new
record's custody balance is zero. -/
def create_escrow (buyer seller : Pubkey) (order_id : List Nat)
    (amount bump : Nat) (now : Int) : Escrow :=
  { buyer := buyer, seller := seller, order_id := order_id,
    amount := amount, status := EscrowStatus.Created, bump := bump,
    created_at := now, locked_at := none, released_at := none,
    resolved_at := none }

/-- `confirm_delivery` of variant B: require the buyer signed (first),
require `status ∈ {Created, Locked}` (second), transfer `amount` from the
escrow account to the seller, then set `status = Released` and
`released_at`. -/
def confirm_delivery (escrow : Escrow) (custody : Nat) (buyer : Pubkey)
    (tr : Except TransferError Unit) (now : Int) :
    (Escrow × Nat) × Option ProgramError :=
  if buyer = escrow.buyer then
    if escrow.status = EscrowStatus.Created ∨ escrow.status = EscrowStatus.Locked then
      match tr with
      | Except.error e => ((escrow, custody), some (ProgramError.transfer e))
      | Except.ok _ =>
          (({ escrow with
              status := EscrowStatus.Released,
              released_at := some now }, custody - escrow.amount), none)
    else ((escrow, custody), some (ProgramError.program EscrowError.InvalidEscrowStatus))
  else ((escrow, custody), some (ProgramError.program EscrowError.UnauthorizedBuyer))

/-- `lock_dispute` of variant B: require the buyer signed (first), require
`status = Created` (second), then set `status = Locked` and `locked_at`.
No fund movement. -/
def lock_dispute (escrow : Escrow) (custody : Nat) (buyer : Pubkey)
    (now : Int) : (Escrow × Nat) × Option ProgramError :=
  if buyer = escrow.buyer then
    if escrow.status = EscrowStatus.Created then
      (({ escrow with
          status := EscrowStatus.Locked,
          locked_at := some now }, custody), none)
    else ((escrow, custody), some (ProgramError.program EscrowError.InvalidEscrowStatus))
  else ((escrow, custody), some (ProgramError.program EscrowError.UnauthorizedBuyer))

/-- `resolve_refund` of variant B: require `status = Locked`, transfer
`amount` from the escrow account back to the buyer, then set
`status = Refunded` and `resolved_at`.  The `admin` signer account is
accepted but never compared against anything: the handler performs no
caller check at all. -/
def resolve_refund (escrow : Escrow) (custody : Nat) (admin : Pubkey)
    (tr : Except TransferError Unit) (now : Int) :
    (Escrow × Nat) × Option ProgramError :=
  if escrow.status = EscrowStatus.Locked then
    match tr with
    | Except.error e => ((escrow, custody), some (ProgramError.transfer e))
    | Except.ok _ =>
        (({ escrow with
            status := EscrowStatus.Refunded,
            resolved_at := some now }, custody - escrow.amount), none)
  else ((escrow, custody), some (ProgramError.program EscrowError.EscrowNotLocked))

/-- `resolve_release` of variant B: require `status = Locked`, transfer
`amount` from the escrow account to the seller, then set
`status = Released` and `resolved_at`.  As with `resolve_refund`, the
`admin` signer is never checked. -/
def resolve_release (escrow : Escrow) (custody : Nat) (admin : Pubkey)
    (tr : Except TransferError Unit) (now : Int) :
    (Escrow × Nat) × Option ProgramError :=
  if escrow.status = EscrowStatus.Locked then
    match tr with
    | Except.error e => ((escrow, custody), some (ProgramError.transfer e))
    | Except.ok _ =>
        (({ escrow with
            status := EscrowStatus.Released,
            resolved_at := some now }, custody - escrow.amount), none)
  else ((escrow, custody), some (ProgramError.program EscrowError.EscrowNotLocked))

/-- A mutating instruction of variant B on an existing record, with its
caller-supplied inputs. -/
inductive Op
  | confirm (buyer : Pubkey) (tr : Except TransferError Unit) (now : Int)
  | lock (buyer : Pubkey) (now : Int)
  | refund (admin : Pubkey) (tr : Except TransferError Unit) (now : Int)
  | release (admin : Pubkey) (tr : Except TransferError Unit) (now : Int)

/-- Run one variant-B instruction against a record/custody pair. -/
def applyOp (s : Escrow × Nat) : Op → (Escrow × Nat) × Option ProgramError
  | Op.confirm b tr now => confirm_delivery s.1 s.2 b tr now
  | Op.lock b now => lock_dispute s.1 s.2 b now
  | Op.refund a tr now => resolve_refund s.1 s.2 a tr now
  | Op.release a tr now => resolve_release s.1 s.2 a tr now

/-- States reachable by creation followed by any sequence of successful
variant-B instructions.  Creation moves no funds, so custody starts at
zero. -/
inductive Reach : Escrow × Nat → Prop
  | create (buyer seller : Pubkey) (order_id : List Nat) (amount bump : Nat)
      (now : Int) :
      Reach (create_escrow buyer seller order_id amount bump now, 0)
  | step (s s' : Escrow × Nat) (op : Op) (h1 : Reach s)
      (h2 : applyOp s op = (s', none)) : Reach s'

/-- Zero or more successful variant-B instructions. -/
inductive Steps : Escrow × Nat → Escrow × Nat → Prop
  | refl (s : Escrow × Nat) : Steps s s
  | tail (s t u : Escrow × Nat) (op : Op) (h1 : Steps s t)
      (h2 : applyOp t op = (u, none)) : Steps s u

end EscrowB

/-- The five escrow statuses of the specification (§4.1). -/
inductive SpecStatus
  | Created
  | Locked
  | Disputed
  | Released
  | Refunded
deriving DecidableEq

/-- Rank of a spec status along the §4.1 transition graph; every edge of the
graph strictly increases it. -/
def specRank : SpecStatus → Nat
  | SpecStatus.Created => 0
  | SpecStatus.Locked => 1
  | SpecStatus.Disputed => 2
  | SpecStatus.Released => 3
  | SpecStatus.Refunded => 3

/-- The directed transition graph of §4.1 as enumerated by the claim:
`Created→Locked→Disputed`, `Created/Locked→Released`,
`Locked/Disputed→Refunded`. -/
inductive SpecEdge : SpecStatus → SpecStatus → Prop
  | created_locked : SpecEdge SpecStatus.Created SpecStatus.Locked
  | locked_disputed : SpecEdge SpecStatus.Locked SpecStatus.Disputed
  | created_released : SpecEdge SpecStatus.Created SpecStatus.Released
  | locked_released : SpecEdge SpecStatus.Locked SpecStatus.Released
  | locked_refunded : SpecEdge SpecStatus.Locked SpecStatus.Refunded
  | disputed_refunded : SpecEdge SpecStatus.Disputed SpecStatus.Refunded

/-- Variant-A states mapped into the spec's status vocabulary. -/
def EscrowA.EscrowState.toSpec : EscrowA.EscrowState → SpecStatus
  | EscrowA.EscrowState.Created => SpecStatus.Created
  | EscrowA.EscrowState.Locked => SpecStatus.Locked
  | EscrowA.EscrowState.Released => SpecStatus.Released
  | EscrowA.EscrowState.Refunded => SpecStatus.Refunded
  | EscrowA.EscrowState.Disputed => SpecStatus.Disputed

/-- Variant-B statuses mapped into the spec's status vocabulary. -/
def EscrowB.EscrowStatus.toSpec : EscrowB.EscrowStatus → SpecStatus
  | EscrowB.EscrowStatus.Created => SpecStatus.Created
  | EscrowB.EscrowStatus.Locked => SpecStatus.Locked
  | EscrowB.EscrowStatus.Released => SpecStatus.Released
  | EscrowB.EscrowStatus.Refunded => SpecStatus.Refunded

/-- Conservation property for a variant-A record/custody pair: custody holds
exactly the declared amount while the record is live (`Locked`/`Disputed`;
`Created` does not occur at rest in variant A), and zero once the record is
terminal (`Released`/`Refunded`). -/
def EscrowA.custodyOk (s : EscrowA.Escrow × Nat) : Prop :=
  s.2 = (if s.1.state = EscrowA.EscrowState.Released ∨
            s.1.state = EscrowA.EscrowState.Refunded
         then 0 else s.1.amount)

/-- Timestamp discipline of a variant-B record: fields are unset until their
transition commits — `Created` has all three unset; `Locked` has `locked_at`
set and the other two unset; `Released` has `released_at` (buyer
confirmation) or `resolved_at` (admin resolution) set; `Refunded` has
`resolved_at` set. -/
def EscrowB.tsOk (e : EscrowB.Escrow) : Prop :=
  (e.status = EscrowB.EscrowStatus.Created →
    e.locked_at = none ∧ e.released_at = none ∧ e.resolved_at = none) ∧
  (e.status = EscrowB.EscrowStatus.Locked →
    e.locked_at ≠ none ∧ e.released_at = none ∧ e.resolved_at = none) ∧
  (e.status = EscrowB.EscrowStatus.Released →
    e.released_at ≠ none ∨ e.resolved_at ≠ none) ∧
  (e.status = EscrowB.EscrowStatus.Refunded →
    e.resolved_at ≠ none)

/-! ## Success characterizations of the instruction handlers -/

theorem EscrowA.release_escrow_ok_iff (escrow : EscrowA.Escrow) (custody : Nat)
    (b : Pubkey) (tr : Except TransferError Unit) (now : Int)
    (esc' : EscrowA.Escrow) (c' : Nat) :
    EscrowA.release_escrow escrow custody b tr now = ((esc', c'), none) ↔
      escrow.state = EscrowA.EscrowState.Locked ∧ escrow.buyer = b ∧
      tr = Except.ok () ∧
      esc' = { escrow with
               state := EscrowA.EscrowState.Released,
               released_at := some now } ∧
      c' = custody - escrow.amount := by
  unfold EscrowA.release_escrow
  split_ifs with h1 h2
  · cases tr with
    | error e => simp
    | ok u => cases u; simp [h1, h2]; aesop
  · simp [h1, h2]
  · simp [h1]

theorem EscrowA.refund_escrow_ok_iff (escrow : EscrowA.Escrow) (custody : Nat)
    (a : Pubkey) (tr : Except TransferError Unit)
    (esc' : EscrowA.Escrow) (c' : Nat) :
    EscrowA.refund_escrow escrow custody a tr = ((esc', c'), none) ↔
      (escrow.state = EscrowA.EscrowState.Locked ∨
       escrow.state = EscrowA.EscrowState.Disputed) ∧
      (escrow.seller = a ∨ a = escrow.buyer) ∧
      tr = Except.ok () ∧
      esc' = { escrow with state := EscrowA.EscrowState.Refunded } ∧
      c' = custody - escrow.amount := by
  unfold EscrowA.refund_escrow
  split_ifs with h1 h2
  · cases tr with
    | error e => simp
    | ok u => cases u; simp [h1, h2]; aesop
  · simp [h1, h2]
  · simp [h1]

theorem EscrowA.dispute_escrow_ok_iff (escrow : EscrowA.Escrow) (custody : Nat)
    (a : Pubkey) (esc' : EscrowA.Escrow) (c' : Nat) :
    EscrowA.dispute_escrow escrow custody a = ((esc', c'), none) ↔
      escrow.state = EscrowA.EscrowState.Locked ∧
      (escrow.buyer = a ∨ escrow.seller = a) ∧
      esc' = { escrow with state := EscrowA.EscrowState.Disputed } ∧
      c' = custody := by
  unfold EscrowA.dispute_escrow
  split_ifs with h1 h2
  · simp [h1, h2]; aesop
  · simp [h1, h2]
  · simp [h1]

theorem EscrowB.confirm_delivery_ok_iff (escrow : EscrowB.Escrow)
    (custody : Nat) (b : Pubkey) (tr : Except TransferError Unit) (now : Int)
    (esc' : EscrowB.Escrow) (c' : Nat) :
    EscrowB.confirm_delivery escrow custody b tr now = ((esc', c'), none) ↔
      b = escrow.buyer ∧
      (escrow.status = EscrowB.EscrowStatus.Created ∨
       escrow.status = EscrowB.EscrowStatus.Locked) ∧
      tr = Except.ok () ∧
      esc' = { escrow with
               status := EscrowB.EscrowStatus.Released,
               released_at := some now } ∧
      c' = custody - escrow.amount := by
  unfold EscrowB.confirm_delivery
  split_ifs with h1 h2
  · cases tr with
    | error e => simp
    | ok u => cases u; simp [h1, h2]; aesop
  · simp [h1, h2]
  · simp [h1]

theorem EscrowB.lock_dispute_ok_iff (escrow : EscrowB.Escrow) (custody : Nat)
    (b : Pubkey) (now : Int) (esc' : EscrowB.Escrow) (c' : Nat) :
    EscrowB.lock_dispute escrow custody b now = ((esc', c'), none) ↔
      b = escrow.buyer ∧ escrow.status = EscrowB.EscrowStatus.Created ∧
      esc' = { escrow with
               status := EscrowB.EscrowStatus.Locked,
               locked_at := some now } ∧
      c' = custody := by
  unfold EscrowB.lock_dispute
  split_ifs with h1 h2
  · simp [h1, h2]; aesop
  · simp [h1, h2]
  · simp [h1]

theorem EscrowB.resolve_refund_ok_iff (escrow : EscrowB.Escrow) (custody : Nat)
    (a : Pubkey) (tr : Except TransferError Unit) (now : Int)
    (esc' : EscrowB.Escrow) (c' : Nat) :
    EscrowB.resolve_refund escrow custody a tr now = ((esc', c'), none) ↔
      escrow.status = EscrowB.EscrowStatus.Locked ∧
      tr = Except.ok () ∧
      esc' = { escrow with
               status := EscrowB.EscrowStatus.Refunded,
               resolved_at := some now } ∧
      c' = custody - escrow.amount := by
  unfold EscrowB.resolve_refund
  split_ifs with h1
  · cases tr with
    | error e => simp
    | ok u => cases u; simp [h1]; aesop
  · simp [h1]

theorem EscrowB.resolve_release_ok_iff (escrow : EscrowB.Escrow)
    (custody : Nat) (a : Pubkey) (tr : Except TransferError Unit) (now : Int)
    (esc' : EscrowB.Escrow) (c' : Nat) :
    EscrowB.resolve_release escrow custody a tr now = ((esc', c'), none) ↔
      escrow.status = EscrowB.EscrowStatus.Locked ∧
      tr = Except.ok () ∧
      esc' = { escrow with
               status := EscrowB.EscrowStatus.Released,
               resolved_at := some now } ∧
      c' = custody - escrow.amount := by
  unfold EscrowB.resolve_release
  split_ifs with h1
  · cases tr with
    | error e => simp
    | ok u => cases u; simp [h1]; aesop
  · simp [h1]

/-! ## Single-step facts about the two state machines -/

/-- Every successful variant-A instruction moves the status along an edge of
the §4.1 graph. -/
theorem EscrowA.stepA_edge (s s' : EscrowA.Escrow × Nat) (op : EscrowA.Op)
    (h : EscrowA.applyOp s op = (s', none)) :
    SpecEdge s.1.state.toSpec s'.1.state.toSpec := by
  rcases s' with ⟨esc', c'⟩
  cases op with
  | release b tr now =>
      rw [show EscrowA.applyOp s (EscrowA.Op.release b tr now) =
            EscrowA.release_escrow s.1 s.2 b tr now from rfl,
          EscrowA.release_escrow_ok_iff] at h
      obtain ⟨h1, -, -, h4, -⟩ := h
      subst h4
      rw [h1]
      exact SpecEdge.locked_released
  | refund a tr =>
      rw [show EscrowA.applyOp s (EscrowA.Op.refund a tr) =
            EscrowA.refund_escrow s.1 s.2 a tr from rfl,
          EscrowA.refund_escrow_ok_iff] at h
      obtain ⟨h1, -, -, h4, -⟩ := h
      subst h4
      rcases h1 with h1 | h1 <;> rw [h1]
      · exact SpecEdge.locked_refunded
      · exact SpecEdge.disputed_refunded
  | dispute a =>
      rw [show EscrowA.applyOp s (EscrowA.Op.dispute a) =
            EscrowA.dispute_escrow s.1 s.2 a from rfl,
          EscrowA.dispute_escrow_ok_iff] at h
      obtain ⟨h1, -, h4, -⟩ := h
      subst h4
      rw [h1]
      exact SpecEdge.locked_disputed

/-- Every successful variant-B instruction moves the status along an edge of
the §4.1 graph. -/
theorem EscrowB.stepB_edge (s s' : EscrowB.Escrow × Nat) (op : EscrowB.Op)
    (h : EscrowB.applyOp s op = (s', none)) :
    SpecEdge s.1.status.toSpec s'.1.status.toSpec := by
  rcases s' with ⟨esc', c'⟩
  cases op with
  | confirm b tr now =>
      rw [show EscrowB.applyOp s (EscrowB.Op.confirm b tr now) =
            EscrowB.confirm_delivery s.1 s.2 b tr now from rfl,
          EscrowB.confirm_delivery_ok_iff] at h
      obtain ⟨-, h2, -, h4, -⟩ := h
      subst h4
      rcases h2 with h2 | h2 <;> rw [h2]
      · exact SpecEdge.created_released
      · exact SpecEdge.locked_released
  | lock b now =>
      rw [show EscrowB.applyOp s (EscrowB.Op.lock b now) =
            EscrowB.lock_dispute s.1 s.2 b now from rfl,
          EscrowB.lock_dispute_ok_iff] at h
      obtain ⟨-, h2, h4, -⟩ := h
      subst h4
      rw [h2]
      exact SpecEdge.created_locked
  | refund a tr now =>
      rw [show EscrowB.applyOp s (EscrowB.Op.refund a tr now) =
            EscrowB.resolve_refund s.1 s.2 a tr now from rfl,
          EscrowB.resolve_refund_ok_iff] at h
      obtain ⟨h1, -, h4, -⟩ := h
      subst h4
      rw [h1]
      exact SpecEdge.locked_refunded
  | release a tr now =>
      rw [show EscrowB.applyOp s (EscrowB.Op.release a tr now) =
            EscrowB.resolve_release s.1 s.2 a tr now from rfl,
          EscrowB.resolve_release_ok_iff] at h
      obtain ⟨h1, -, h4, -⟩ := h
      subst h4
      rw [h1]
      exact SpecEdge.locked_released

/-- Every edge of the §4.1 graph strictly increases the status rank. -/
theorem SpecEdge.rank_lt (a b : SpecStatus) (h : SpecEdge a b) :
    specRank a < specRank b := by
  cases h <;> decide

/-- Any sequence of successful variant-A instructions is rank-monotone. -/
theorem EscrowA.stepsA_rank_le (s t : EscrowA.Escrow × Nat)
    (h : EscrowA.Steps s t) :
    specRank s.1.state.toSpec ≤ specRank t.1.state.toSpec := by
  induction h with
  | refl => exact Nat.le_refl _
  | tail t u op h1 h2 ih =>
      exact Nat.le_trans ih (Nat.le_of_lt (SpecEdge.rank_lt _ _
        (EscrowA.stepA_edge t u op h2)))

/-- Any sequence of successful variant-B instructions is rank-monotone. -/
theorem EscrowB.stepsB_rank_le (s t : EscrowB.Escrow × Nat)
    (h : EscrowB.Steps s t) :
    specRank s.1.status.toSpec ≤ specRank t.1.status.toSpec := by
  induction h with
  | refl => exact Nat.le_refl _
  | tail t u op h1 h2 ih =>
      exact Nat.le_trans ih (Nat.le_of_lt (SpecEdge.rank_lt _ _
        (EscrowB.stepB_edge t u op h2)))

/-- Every reachable variant-A state satisfies the conservation property. -/
theorem EscrowA.reach_custodyOk (s : EscrowA.Escrow × Nat)
    (h : EscrowA.Reach s) : EscrowA.custodyOk s := by
  induction h with
  | create buyer seller order_id amount bump tr now s h =>
      cases tr with
      | error e => simp [EscrowA.create_escrow] at h
      | ok u =>
          cases u
          simp only [EscrowA.create_escrow, Except.ok.injEq] at h
          subst h
          simp [EscrowA.custodyOk]
  | step s s' op h1 h2 ih =>
      rcases s' with ⟨esc', c'⟩
      cases op with
      | release b tr now =>
          rw [show EscrowA.applyOp s (EscrowA.Op.release b tr now) =
                EscrowA.release_escrow s.1 s.2 b tr now from rfl,
              EscrowA.release_escrow_ok_iff] at h2
          obtain ⟨hst, -, -, h4, h5⟩ := h2
          subst h4; subst h5
          unfold EscrowA.custodyOk at ih ⊢
          simp only [hst] at ih
          simp [ih]
      | refund a tr =>
          rw [show EscrowA.applyOp s (EscrowA.Op.refund a tr) =
                EscrowA.refund_escrow s.1 s.2 a tr from rfl,
              EscrowA.refund_escrow_ok_iff] at h2
          obtain ⟨hst, -, -, h4, h5⟩ := h2
          subst h4; subst h5
          unfold EscrowA.custodyOk at ih ⊢
          rcases hst with hst | hst <;> simp only [hst] at ih <;> simp [ih]
      | dispute a =>
          rw [show EscrowA.applyOp s (EscrowA.Op.dispute a) =
                EscrowA.dispute_escrow s.1 s.2 a from rfl,
              EscrowA.dispute_escrow_ok_iff] at h2
          obtain ⟨hst, -, h4, h5⟩ := h2
          subst h4; subst h5
          unfold EscrowA.custodyOk at ih ⊢
          simp only [hst] at ih
          simp [ih]

/-- Every reachable variant-B state satisfies the timestamp discipline. -/
theorem EscrowB.reach_tsOk (s : EscrowB.Escrow × Nat) (h : EscrowB.Reach s) :
    EscrowB.tsOk s.1 := by
  induction h with
  | create buyer seller order_id amount bump now =>
      simp [EscrowB.tsOk, EscrowB.create_escrow]
  | step s s' op h1 h2 ih =>
      rcases s' with ⟨esc', c'⟩
      cases op with
      | confirm b tr now =>
          rw [show EscrowB.applyOp s (EscrowB.Op.confirm b tr now) =
                EscrowB.confirm_delivery s.1 s.2 b tr now from rfl,
              EscrowB.confirm_delivery_ok_iff] at h2
          obtain ⟨-, -, -, h4, -⟩ := h2
          subst h4
          simp [EscrowB.tsOk]
      | lock b now =>
          rw [show EscrowB.applyOp s (EscrowB.Op.lock b now) =
                EscrowB.lock_dispute s.1 s.2 b now from rfl,
              EscrowB.lock_dispute_ok_iff] at h2
          obtain ⟨-, hst, h4, -⟩ := h2
          subst h4
          obtain ⟨hcr, -, -, -⟩ := ih
          obtain ⟨-, hrel, hres⟩ := hcr hst
          simp [EscrowB.tsOk, hrel, hres]
      | refund a tr now =>
          rw [show EscrowB.applyOp s (EscrowB.Op.refund a tr now) =
                EscrowB.resolve_refund s.1 s.2 a tr now from rfl,
              EscrowB.resolve_refund_ok_iff] at h2
          obtain ⟨-, -, h4, -⟩ := h2
          subst h4
          simp [EscrowB.tsOk]
      | release a tr now =>
          rw [show EscrowB.applyOp s (EscrowB.Op.release a tr now) =
                EscrowB.resolve_release s.1 s.2 a tr now from rfl,
              EscrowB.resolve_release_ok_iff] at h2
          obtain ⟨-, -, h4, -⟩ := h2
          subst h4
          simp [EscrowB.tsOk]

/-! ## Claims -/

/-- C2: for every sequence of successful operations on one escrow record,
in either variant, the status only advances along the directed transition
graph of §4.1 (every successful step follows a `SpecEdge`); after any step
the earlier status (indeed any status of equal or lower rank) is never
revisited; and no single successful step moves the status from `Created`
to `Refunded`. -/
theorem c2_status_advances_along_graph :
    (∀ (s s' : EscrowA.Escrow × Nat) (op : EscrowA.Op),
      EscrowA.applyOp s op = (s', none) →
      SpecEdge s.1.state.toSpec s'.1.state.toSpec) ∧
    (∀ (s s' : EscrowB.Escrow × Nat) (op : EscrowB.Op),
      EscrowB.applyOp s op = (s', none) →
      SpecEdge s.1.status.toSpec s'.1.status.toSpec) ∧
    (∀ (s mid t : EscrowA.Escrow × Nat) (op : EscrowA.Op),
      EscrowA.applyOp s op = (mid, none) → EscrowA.Steps mid t →
      specRank s.1.state.toSpec < specRank t.1.state.toSpec ∧
      t.1.state ≠ s.1.state) ∧
    (∀ (s mid t : EscrowB.Escrow × Nat) (op : EscrowB.Op),
      EscrowB.applyOp s op = (mid, none) → EscrowB.Steps mid t →
      specRank s.1.status.toSpec < specRank t.1.status.toSpec ∧
      t.1.status ≠ s.1.status) ∧
    (∀ (s s' : EscrowA.Escrow × Nat) (op : EscrowA.Op),
      EscrowA.applyOp s op = (s', none) →
      s.1.state = EscrowA.EscrowState.Created →
      s'.1.state ≠ EscrowA.EscrowState.Refunded) ∧
    (∀ (s s' : EscrowB.Escrow × Nat) (op : EscrowB.Op),
      EscrowB.applyOp s op = (s', none) →
      s.1.status = EscrowB.EscrowStatus.Created →
      s'.1.status ≠ EscrowB.EscrowStatus.Refunded) := by
  have hA : ∀ (s mid t : EscrowA.Escrow × Nat) (op : EscrowA.Op),
      EscrowA.applyOp s op = (mid, none) → EscrowA.Steps mid t →
      specRank s.1.state.toSpec < specRank t.1.state.toSpec := by
    intro s mid t op h1 h2
    exact Nat.lt_of_lt_of_le
      (SpecEdge.rank_lt _ _ (EscrowA.stepA_edge s mid op h1))
      (EscrowA.stepsA_rank_le mid t h2)
  have hB : ∀ (s mid t : EscrowB.Escrow × Nat) (op : EscrowB.Op),
      EscrowB.applyOp s op = (mid, none) → EscrowB.Steps mid t →
      specRank s.1.status.toSpec < specRank t.1.status.toSpec := by
    intro s mid t op h1 h2
    exact Nat.lt_of_lt_of_le
      (SpecEdge.rank_lt _ _ (EscrowB.stepB_edge s mid op h1))
      (EscrowB.stepsB_rank_le mid t h2)
  refine ⟨EscrowA.stepA_edge, EscrowB.stepB_edge, ?_, ?_, ?_, ?_⟩
  · intro s mid t op h1 h2
    refine ⟨hA s mid t op h1 h2, ?_⟩
    intro hEq
    exact absurd (hA s mid t op h1 h2) (by rw [hEq]; exact Nat.lt_irrefl _)
  · intro s mid t op h1 h2
    refine ⟨hB s mid t op h1 h2, ?_⟩
    intro hEq
    exact absurd (hB s mid t op h1 h2) (by rw [hEq]; exact Nat.lt_irrefl _)
  · intro s s' op h1 h2 h3
    have := EscrowA.stepA_edge s s' op h1
    rw [h2, h3] at this
    cases this
  · intro s s' op h1 h2 h3
    have := EscrowB.stepB_edge s s' op h1
    rw [h2, h3] at this
    cases this

/-- Witness for C2: a concrete successful `lock_dispute` step of variant B
(from `Created` to `Locked`) follows the §4.1 graph, and after a concrete
successful `release_escrow` step of variant A the original `Locked` status
is never revisited. -/
theorem c2_status_advances_along_graph_witness :
    SpecEdge SpecStatus.Created SpecStatus.Locked ∧
    ({ buyer := 1, seller := 2, order_id := [65], amount := 100,
       state := EscrowA.EscrowState.Released, bump := 0, created_at := 0,
       released_at := some 9 } : EscrowA.Escrow).state ≠
      EscrowA.EscrowState.Locked :=
  ⟨c2_status_advances_along_graph.2.1
      ({ buyer := 1, seller := 2, order_id := [65], amount := 100,
         status := EscrowB.EscrowStatus.Created, bump := 0, created_at := 0,
         locked_at := none, released_at := none, resolved_at := none }, 0)
      (({ buyer := 1, seller := 2, order_id := [65], amount := 100,
          status := EscrowB.EscrowStatus.Locked, bump := 0, created_at := 0,
          locked_at := some 4, released_at := none, resolved_at := none }, 0))
      (EscrowB.Op.lock 1 4) (by decide),
   (c2_status_advances_along_graph.2.2.1
      ({ buyer := 1, seller := 2, order_id := [65], amount := 100,
         state := EscrowA.EscrowState.Locked, bump := 0, created_at := 0,
         released_at := none }, 100)
      (({ buyer := 1, seller := 2, order_id := [65], amount := 100,
          state := EscrowA.EscrowState.Released, bump := 0, created_at := 0,
          released_at := some 9 }, 0))
      (({ buyer := 1, seller := 2, order_id := [65], amount := 100,
          state := EscrowA.EscrowState.Released, bump := 0, created_at := 0,
          released_at := some 9 }, 0))
      (EscrowA.Op.release 1 (Except.ok ()) 9) (by decide)
      (EscrowA.Steps.refl _)).2⟩

/-- C3 counterexample: in variant B a successful `create_escrow` moves no
funds, so the reachable state right after creation has `status = Created`
and a custody balance of `0`, which differs from the record's declared
`amount = 1000` — refuting the claim that custody equals the declared
amount while the status is `Created`. -/
theorem c3_custody_counterexample :
    EscrowB.Reach (EscrowB.create_escrow 1 2 [65] 1000 0 0, 0) ∧
    (EscrowB.create_escrow 1 2 [65] 1000 0 0).status =
      EscrowB.EscrowStatus.Created ∧
    (EscrowB.create_escrow 1 2 [65] 1000 0 0).amount = 1000 ∧
    (0 : Nat) ≠ (EscrowB.create_escrow 1 2 [65] 1000 0 0).amount :=
  ⟨EscrowB.Reach.create 1 2 [65] 1000 0 0, rfl, rfl, by decide⟩

/-- C3 amended: in the funded-on-create variant (A), every reachable state
holds exactly the declared `amount` in custody while live
(`Locked`/`Disputed`) and exactly zero once terminal
(`Released`/`Refunded`); each successful release or refund moves exactly
the full declared amount (custody was `amount` before and is `0` after).
In the deferred variant (B) the program moves no funds at creation, so a
record in `Created` status can sit over an empty custody balance. -/
theorem c3_custody_conservation_amended :
    (∀ s : EscrowA.Escrow × Nat, EscrowA.Reach s → EscrowA.custodyOk s) ∧
    (∀ (s : EscrowA.Escrow × Nat) (b : Pubkey)
        (tr : Except TransferError Unit) (now : Int)
        (esc' : EscrowA.Escrow) (c' : Nat),
      EscrowA.Reach s →
      EscrowA.release_escrow s.1 s.2 b tr now = ((esc', c'), none) →
      s.2 = s.1.amount ∧ c' = 0) ∧
    (∀ (s : EscrowA.Escrow × Nat) (a : Pubkey)
        (tr : Except TransferError Unit)
        (esc' : EscrowA.Escrow) (c' : Nat),
      EscrowA.Reach s →
      EscrowA.refund_escrow s.1 s.2 a tr = ((esc', c'), none) →
      s.2 = s.1.amount ∧ c' = 0) := by
  refine ⟨EscrowA.reach_custodyOk, ?_, ?_⟩
  · intro s b tr now esc' c' hr hok
    rw [EscrowA.release_escrow_ok_iff] at hok
    obtain ⟨hst, -, -, -, h5⟩ := hok
    have hc := EscrowA.reach_custodyOk s hr
    unfold EscrowA.custodyOk at hc
    rw [hst] at hc
    simp at hc
    exact ⟨hc, by rw [h5, hc, Nat.sub_self]⟩
  · intro s a tr esc' c' hr hok
    rw [EscrowA.refund_escrow_ok_iff] at hok
    obtain ⟨hst, -, -, -, h5⟩ := hok
    have hc := EscrowA.reach_custodyOk s hr
    unfold EscrowA.custodyOk at hc
    have hamt : s.2 = s.1.amount := by
      rcases hst with hst | hst <;> rw [hst] at hc <;> simpa using hc
    exact ⟨hamt, by rw [h5, hamt, Nat.sub_self]⟩

/-- Witness for C3's amended theorem: the conservation property evaluated
at the concrete state reached by a successful variant-A creation of amount
`5`, and the full-amount conclusion for a concrete release from it. -/
theorem c3_custody_conservation_amended_witness :
    EscrowA.custodyOk
      ({ buyer := 1, seller := 2, order_id := [65], amount := 5,
         state := EscrowA.EscrowState.Locked, bump := 0, created_at := 0,
         released_at := none }, 5) ∧
    ((5 : Nat) = 5 ∧ (0 : Nat) = 0) :=
  ⟨c3_custody_conservation_amended.1 _
      (EscrowA.Reach.create 1 2 [65] 5 0 (Except.ok ()) 0 _ rfl),
   c3_custody_conservation_amended.2.1
      ({ buyer := 1, seller := 2, order_id := [65], amount := 5,
         state := EscrowA.EscrowState.Locked, bump := 0, created_at := 0,
         released_at := none }, 5) 1 (Except.ok ()) 9
      ({ buyer := 1, seller := 2, order_id := [65], amount := 5,
         state := EscrowA.EscrowState.Released, bump := 0, created_at := 0,
         released_at := some 9 }) 0
      (EscrowA.Reach.create 1 2 [65] 5 0 (Except.ok ()) 0 _ rfl)
      (by decide)⟩

/-- C4 (evaluation at the failing input): variant A's `refund_escrow`,
invoked by the buyer (key 1) on a record in plain `Locked` state — not
`Disputed` — succeeds and commits `Refunded`, despite the handler's own
comments "Only seller or admin can initiate refund" and "Allow buyer in
disputed state"; and variant B's `resolve_refund` succeeds for a caller
(key 999) who is neither buyer, seller, nor checked at all.  The claim says
both must be rejected as `Unauthorized`. -/
theorem c4_unauthorized_refund_succeeds :
    (EscrowA.refund_escrow
        { buyer := 1, seller := 2, order_id := [65], amount := 100,
          state := EscrowA.EscrowState.Locked, bump := 0, created_at := 0,
          released_at := none } 100 1 (Except.ok ()) =
      (({ buyer := 1, seller := 2, order_id := [65], amount := 100,
          state := EscrowA.EscrowState.Refunded, bump := 0, created_at := 0,
          released_at := none }, 0), none)) ∧
    (1 : Pubkey) ≠ (2 : Pubkey) ∧
    (EscrowB.resolve_refund
        { buyer := 1, seller := 2, order_id := [65], amount := 100,
          status := EscrowB.EscrowStatus.Locked, bump := 0, created_at := 0,
          locked_at := some 3, released_at := none, resolved_at := none }
        100 999 (Except.ok ()) 9 =
      (({ buyer := 1, seller := 2, order_id := [65], amount := 100,
          status := EscrowB.EscrowStatus.Refunded, bump := 0, created_at := 0,
          locked_at := some 3, released_at := none, resolved_at := some 9 },
        0), none)) ∧
    (999 : Pubkey) ≠ (1 : Pubkey) ∧ (999 : Pubkey) ≠ (2 : Pubkey) := by
  refine ⟨by decide, by decide, by decide, by decide, by decide⟩

/-- C5 counterexample: variant B's `confirm_delivery` validates the caller
before the status.  On a record whose status (`Released`) is outside the
allowed set, a non-buyer caller receives `UnauthorizedBuyer`, not
`InvalidEscrowStatus` — so the claim's order "status check first, then
caller check" does not hold. -/
theorem c5_check_order_counterexample :
    (EscrowB.confirm_delivery
        { buyer := 1, seller := 2, order_id := [65], amount := 100,
          status := EscrowB.EscrowStatus.Released, bump := 0, created_at := 0,
          locked_at := none, released_at := some 5, resolved_at := none }
        0 999 (Except.ok ()) 9 =
      (({ buyer := 1, seller := 2, order_id := [65], amount := 100,
          status := EscrowB.EscrowStatus.Released, bump := 0, created_at := 0,
          locked_at := none, released_at := some 5, resolved_at := none }, 0),
        some (EscrowB.ProgramError.program
          EscrowB.EscrowError.UnauthorizedBuyer))) ∧
    ¬ (EscrowB.EscrowStatus.Released = EscrowB.EscrowStatus.Created ∨
       EscrowB.EscrowStatus.Released = EscrowB.EscrowStatus.Locked) ∧
    (999 : Pubkey) ≠ (1 : Pubkey) ∧
    EscrowB.EscrowError.UnauthorizedBuyer ≠
      EscrowB.EscrowError.InvalidEscrowStatus := by
  refine ⟨by decide, by decide, by decide, by decide⟩

/-- C5 amended: variant A validates status first and caller second, while
variant B validates the caller first and status second; in both variants
every role/state check completes before any fund movement is attempted:
whenever a handler returns a program error (`InvalidState`/`Unauthorized`
in A, `UnauthorizedBuyer`/`InvalidEscrowStatus`/`EscrowNotLocked` in B),
then for every possible transfer outcome the handler returns the record
and custody unchanged with that same error — no transfer was consulted or
applied. -/
theorem c5_checks_before_transfer_amended :
    (∀ (escrow : EscrowA.Escrow) (custody : Nat) (b : Pubkey) (now : Int)
        (tr tr' : Except TransferError Unit) (e : EscrowA.EscrowError),
      (EscrowA.release_escrow escrow custody b tr now).2 =
        some (EscrowA.ProgramError.program e) →
      EscrowA.release_escrow escrow custody b tr' now =
        ((escrow, custody), some (EscrowA.ProgramError.program e))) ∧
    (∀ (escrow : EscrowA.Escrow) (custody : Nat) (a : Pubkey)
        (tr tr' : Except TransferError Unit) (e : EscrowA.EscrowError),
      (EscrowA.refund_escrow escrow custody a tr).2 =
        some (EscrowA.ProgramError.program e) →
      EscrowA.refund_escrow escrow custody a tr' =
        ((escrow, custody), some (EscrowA.ProgramError.program e))) ∧
    (∀ (escrow : EscrowA.Escrow) (custody : Nat) (a : Pubkey)
        (e : EscrowA.ProgramError),
      (EscrowA.dispute_escrow escrow custody a).2 = some e →
      EscrowA.dispute_escrow escrow custody a = ((escrow, custody), some e)) ∧
    (∀ (escrow : EscrowB.Escrow) (custody : Nat) (b : Pubkey) (now : Int)
        (tr tr' : Except TransferError Unit) (e : EscrowB.EscrowError),
      (EscrowB.confirm_delivery escrow custody b tr now).2 =
        some (EscrowB.ProgramError.program e) →
      EscrowB.confirm_delivery escrow custody b tr' now =
        ((escrow, custody), some (EscrowB.ProgramError.program e))) ∧
    (∀ (escrow : EscrowB.Escrow) (custody : Nat) (b : Pubkey) (now : Int)
        (e : EscrowB.ProgramError),
      (EscrowB.lock_dispute escrow custody b now).2 = some e →
      EscrowB.lock_dispute escrow custody b now = ((escrow, custody), some e)) ∧
    (∀ (escrow : EscrowB.Escrow) (custody : Nat) (a : Pubkey) (now : Int)
        (tr tr' : Except TransferError Unit) (e : EscrowB.EscrowError),
      (EscrowB.resolve_refund escrow custody a tr now).2 =
        some (EscrowB.ProgramError.program e) →
      EscrowB.resolve_refund escrow custody a tr' now =
        ((escrow, custody), some (EscrowB.ProgramError.program e))) ∧
    (∀ (escrow : EscrowB.Escrow) (custody : Nat) (a : Pubkey) (now : Int)
        (tr tr' : Except TransferError Unit) (e : EscrowB.EscrowError),
      (EscrowB.resolve_release escrow custody a tr now).2 =
        some (EscrowB.ProgramError.program e) →
      EscrowB.resolve_release escrow custody a tr' now =
        ((escrow, custody), some (EscrowB.ProgramError.program e))) := by
  refine ⟨?_, ?_, ?_, ?_, ?_, ?_, ?_⟩
  · intro escrow custody b now tr tr' e h
    unfold EscrowA.release_escrow at h ⊢
    split_ifs at h ⊢ with h1 h2
    · cases tr with
      | error e2 => simp at h
      | ok u => simp at h
    · simp at h
      rw [h]
    · simp at h
      rw [h]
  · intro escrow custody a tr tr' e h
    unfold EscrowA.refund_escrow at h ⊢
    split_ifs at h ⊢ with h1 h2
    · cases tr with
      | error e2 => simp at h
      | ok u => simp at h
    · simp at h
      rw [h]
    · simp at h
      rw [h]
  · intro escrow custody a e h
    unfold EscrowA.dispute_escrow at h ⊢
    split_ifs at h ⊢ with h1 h2 <;> simp at h <;> rw [h]
  · intro escrow custody b now tr tr' e h
    unfold EscrowB.confirm_delivery at h ⊢
    split_ifs at h ⊢ with h1 h2
    · cases tr with
      | error e2 => simp at h
      | ok u => simp at h
    · simp at h
      rw [h]
    · simp at h
      rw [h]
  · intro escrow custody b now e h
    unfold EscrowB.lock_dispute at h ⊢
    split_ifs at h ⊢ with h1 h2 <;> simp at h <;> rw [h]
  · intro escrow custody a now tr tr' e h
    unfold EscrowB.resolve_refund at h ⊢
    split_ifs at h ⊢ with h1
    · cases tr with
      | error e2 => simp at h
      | ok u => simp at h
    · simp at h
      rw [h]
  · intro escrow custody a now tr tr' e h
    unfold EscrowB.resolve_release at h ⊢
    split_ifs at h ⊢ with h1
    · cases tr with
      | error e2 => simp at h
      | ok u => simp at h
    · simp at h
      rw [h]

/-- Witness for C5's amended theorem: a wrong-buyer `release_escrow` call
of variant A that returned `Unauthorized` under a failing transfer outcome
returns the identical unchanged result under a succeeding transfer
outcome — the transfer is never consulted. -/
theorem c5_checks_before_transfer_amended_witness :
    EscrowA.release_escrow
      { buyer := 1, seller := 2, order_id := [65], amount := 100,
        state := EscrowA.EscrowState.Locked, bump := 0, created_at := 0,
        released_at := none } 100 999 (Except.ok ()) 9 =
      (({ buyer := 1, seller := 2, order_id := [65], amount := 100,
          state := EscrowA.EscrowState.Locked, bump := 0, created_at := 0,
          released_at := none }, 100),
        some (EscrowA.ProgramError.program EscrowA.EscrowError.Unauthorized)) :=
  c5_checks_before_transfer_amended.1
    { buyer := 1, seller := 2, order_id := [65], amount := 100,
      state := EscrowA.EscrowState.Locked, bump := 0, created_at := 0,
      released_at := none } 100 999 9 (Except.error 3) (Except.ok ())
    EscrowA.EscrowError.Unauthorized (by decide)

/-- C1: for every fund-moving operation of either variant
(`release_escrow`, `refund_escrow`, `confirm_delivery`, `resolve_refund`,
`resolve_release`), if the role and state checks pass but the ledger
transfer fails, the operation returns exactly the transfer's error and the
whole record — status, every timestamp field, and the custody balance —
is returned unchanged: the transition is all-or-nothing. -/
theorem c1_transfer_failure_is_atomic :
    (∀ (escrow : EscrowA.Escrow) (custody : Nat) (b : Pubkey)
        (e : TransferError) (now : Int),
      escrow.state = EscrowA.EscrowState.Locked → escrow.buyer = b →
      EscrowA.release_escrow escrow custody b (Except.error e) now =
        ((escrow, custody), some (EscrowA.ProgramError.transfer e))) ∧
    (∀ (escrow : EscrowA.Escrow) (custody : Nat) (a : Pubkey)
        (e : TransferError),
      (escrow.state = EscrowA.EscrowState.Locked ∨
       escrow.state = EscrowA.EscrowState.Disputed) →
      (escrow.seller = a ∨ a = escrow.buyer) →
      EscrowA.refund_escrow escrow custody a (Except.error e) =
        ((escrow, custody), some (EscrowA.ProgramError.transfer e))) ∧
    (∀ (escrow : EscrowB.Escrow) (custody : Nat) (b : Pubkey)
        (e : TransferError) (now : Int),
      b = escrow.buyer →
      (escrow.status = EscrowB.EscrowStatus.Created ∨
       escrow.status = EscrowB.EscrowStatus.Locked) →
      EscrowB.confirm_delivery escrow custody b (Except.error e) now =
        ((escrow, custody), some (EscrowB.ProgramError.transfer e))) ∧
    (∀ (escrow : EscrowB.Escrow) (custody : Nat) (a : Pubkey)
        (e : TransferError) (now : Int),
      escrow.status = EscrowB.EscrowStatus.Locked →
      EscrowB.resolve_refund escrow custody a (Except.error e) now =
        ((escrow, custody), some (EscrowB.ProgramError.transfer e))) ∧
    (∀ (escrow : EscrowB.Escrow) (custody : Nat) (a : Pubkey)
        (e : TransferError) (now : Int),
      escrow.status = EscrowB.EscrowStatus.Locked →
      EscrowB.resolve_release escrow custody a (Except.error e) now =
        ((escrow, custody), some (EscrowB.ProgramError.transfer e))) := by
  refine ⟨?_, ?_, ?_, ?_, ?_⟩
  · intro escrow custody b e now h1 h2
    simp [EscrowA.release_escrow, h1, h2]
  · intro escrow custody a e h1 h2
    simp [EscrowA.refund_escrow, h1, h2]
  · intro escrow custody b e now h1 h2
    simp [EscrowB.confirm_delivery, h1, h2]
  · intro escrow custody a e now h1
    simp [EscrowB.resolve_refund, h1]
  · intro escrow custody a e now h1
    simp [EscrowB.resolve_release, h1]

/-- Witness for C1: each conjunct applied at a concrete escrow whose
role/state checks hold, with the transfer made to fail with error code 7. -/
theorem c1_transfer_failure_is_atomic_witness :
    (EscrowA.release_escrow
        { buyer := 1, seller := 2, order_id := [65], amount := 100,
          state := EscrowA.EscrowState.Locked, bump := 0, created_at := 0,
          released_at := none } 100 1 (Except.error 7) 9 =
      (({ buyer := 1, seller := 2, order_id := [65], amount := 100,
          state := EscrowA.EscrowState.Locked, bump := 0, created_at := 0,
          released_at := none }, 100),
        some (EscrowA.ProgramError.transfer 7))) ∧
    (EscrowA.refund_escrow
        { buyer := 1, seller := 2, order_id := [65], amount := 100,
          state := EscrowA.EscrowState.Disputed, bump := 0, created_at := 0,
          released_at := none } 100 2 (Except.error 7) =
      (({ buyer := 1, seller := 2, order_id := [65], amount := 100,
          state := EscrowA.EscrowState.Disputed, bump := 0, created_at := 0,
          released_at := none }, 100),
        some (EscrowA.ProgramError.transfer 7))) ∧
    (EscrowB.confirm_delivery
        { buyer := 1, seller := 2, order_id := [65], amount := 100,
          status := EscrowB.EscrowStatus.Created, bump := 0, created_at := 0,
          locked_at := none, released_at := none, resolved_at := none }
        0 1 (Except.error 7) 9 =
      (({ buyer := 1, seller := 2, order_id := [65], amount := 100,
          status := EscrowB.EscrowStatus.Created, bump := 0, created_at := 0,
          locked_at := none, released_at := none, resolved_at := none }, 0),
        some (EscrowB.ProgramError.transfer 7))) ∧
    (EscrowB.resolve_refund
        { buyer := 1, seller := 2, order_id := [65], amount := 100,
          status := EscrowB.EscrowStatus.Locked, bump := 0, created_at := 0,
          locked_at := some 3, released_at := none, resolved_at := none }
        0 5 (Except.error 7) 9 =
      (({ buyer := 1, seller := 2, order_id := [65], amount := 100,
          status := EscrowB.EscrowStatus.Locked, bump := 0, created_at := 0,
          locked_at := some 3, released_at := none, resolved_at := none }, 0),
        some (EscrowB.ProgramError.transfer 7))) ∧
    (EscrowB.resolve_release
        { buyer := 1, seller := 2, order_id := [65], amount := 100,
          status := EscrowB.EscrowStatus.Locked, bump := 0, created_at := 0,
          locked_at := some 3, released_at := none, resolved_at := none }
        0 5 (Except.error 7) 9 =
      (({ buyer := 1, seller := 2, order_id := [65], amount := 100,
          status := EscrowB.EscrowStatus.Locked, bump := 0, created_at := 0,
          locked_at := some 3, released_at := none, resolved_at := none }, 0),
        some (EscrowB.ProgramError.transfer 7))) :=
  ⟨c1_transfer_failure_is_atomic.1 _ 100 1 7 9 rfl rfl,
   c1_transfer_failure_is_atomic.2.1 _ 100 2 7 (Or.inr rfl) (Or.inl rfl),
   c1_transfer_failure_is_atomic.2.2.1 _ 0 1 7 9 rfl (Or.inl rfl),
   c1_transfer_failure_is_atomic.2.2.2.1 _ 0 5 7 9 rfl,
   c1_transfer_failure_is_atomic.2.2.2.2 _ 0 5 7 9 rfl⟩

/-- C6 counterexample: a record of variant A sitting in `Disputed` status
cannot be released — `release_escrow`, called by the buyer (the only role
that variant admits for release) with a succeeding transfer, returns
`InvalidState` and leaves the record unchanged.  This refutes the claim
that a release succeeds on every record whose status is Locked *or
Disputed*, and with it the Scenario-3 sequence (dispute, then release →
`Released`). -/
theorem c6_release_from_disputed_counterexample :
    (EscrowA.release_escrow
        { buyer := 1, seller := 2, order_id := [65], amount := 100,
          state := EscrowA.EscrowState.Disputed, bump := 0, created_at := 0,
          released_at := none } 100 1 (Except.ok ()) 9 =
      (({ buyer := 1, seller := 2, order_id := [65], amount := 100,
          state := EscrowA.EscrowState.Disputed, bump := 0, created_at := 0,
          released_at := none }, 100),
        some (EscrowA.ProgramError.program EscrowA.EscrowError.InvalidState))) ∧
    EscrowA.EscrowState.Disputed ≠ EscrowA.EscrowState.Released := by
  refine ⟨by decide, by decide⟩

/-- C6 amended: `resolve_release` of variant B succeeds on every record in
`Locked` status — for any signer, since the handler checks none — moving
the full `amount` from custody to the seller and committing `Released`
with `resolved_at` set; variant A's `release_escrow` likewise succeeds for
the buyer on every `Locked` record.  Releasing from `Disputed` is not
supported: variant A's `release_escrow` always returns `InvalidState` on a
`Disputed` record, and variant B has no `Disputed` status at all. -/
theorem c6_resolve_release_amended :
    (∀ (escrow : EscrowB.Escrow) (custody : Nat) (a : Pubkey) (now : Int),
      escrow.status = EscrowB.EscrowStatus.Locked →
      EscrowB.resolve_release escrow custody a (Except.ok ()) now =
        (({ escrow with
            status := EscrowB.EscrowStatus.Released,
            resolved_at := some now }, custody - escrow.amount), none)) ∧
    (∀ (escrow : EscrowA.Escrow) (custody : Nat) (now : Int),
      escrow.state = EscrowA.EscrowState.Locked →
      EscrowA.release_escrow escrow custody escrow.buyer (Except.ok ()) now =
        (({ escrow with
            state := EscrowA.EscrowState.Released,
            released_at := some now }, custody - escrow.amount), none)) ∧
    (∀ (escrow : EscrowA.Escrow) (custody : Nat) (b : Pubkey)
        (tr : Except TransferError Unit) (now : Int),
      escrow.state = EscrowA.EscrowState.Disputed →
      EscrowA.release_escrow escrow custody b tr now =
        ((escrow, custody),
          some (EscrowA.ProgramError.program EscrowA.EscrowError.InvalidState))) := by
  refine ⟨?_, ?_, ?_⟩
  · intro escrow custody a now h
    simp [EscrowB.resolve_release, h]
  · intro escrow custody now h
    simp [EscrowA.release_escrow, h]
  · intro escrow custody b tr now h
    simp [EscrowA.release_escrow, h]

/-- Witness for C6's amended theorem: `resolve_release` applied to a
concrete `Locked` variant-B record with amount 100 and custody 100 commits
`Released` with `resolved_at = 9` and empties custody. -/
theorem c6_resolve_release_amended_witness :
    EscrowB.resolve_release
      { buyer := 1, seller := 2, order_id := [65], amount := 100,
        status := EscrowB.EscrowStatus.Locked, bump := 0, created_at := 0,
        locked_at := some 3, released_at := none, resolved_at := none }
      100 7 (Except.ok ()) 9 =
      (({ buyer := 1, seller := 2, order_id := [65], amount := 100,
          status := EscrowB.EscrowStatus.Released, bump := 0, created_at := 0,
          locked_at := some 3, released_at := none, resolved_at := some 9 },
        0), none) :=
  c6_resolve_release_amended.1
    { buyer := 1, seller := 2, order_id := [65], amount := 100,
      status := EscrowB.EscrowStatus.Locked, bump := 0, created_at := 0,
      locked_at := some 3, released_at := none, resolved_at := none }
    100 7 9 rfl

/-- C7 counterexample: in variant A a refund commits with no timestamp
recorded at all — the record type has no `resolved_at` (nor `locked_at`)
field, and `refund_escrow` writes nothing but `state`; after a committed
refund the record's only optional timestamp, `released_at`, is still
`none`.  This refutes "a committed refund leaves `resolved_at` set" and
the non-null-iff-committed biconditional. -/
theorem c7_refund_timestamp_counterexample :
    (EscrowA.refund_escrow
        { buyer := 1, seller := 2, order_id := [65], amount := 100,
          state := EscrowA.EscrowState.Locked, bump := 0, created_at := 0,
          released_at := none } 100 2 (Except.ok ()) =
      (({ buyer := 1, seller := 2, order_id := [65], amount := 100,
          state := EscrowA.EscrowState.Refunded, bump := 0, created_at := 0,
          released_at := none }, 0), none)) ∧
    ({ buyer := 1, seller := 2, order_id := [65], amount := 100,
       state := EscrowA.EscrowState.Refunded, bump := 0, created_at := 0,
       released_at := none } : EscrowA.Escrow).released_at = none := by
  refine ⟨by decide, rfl⟩

/-- C7 amended: in variant B every reachable record ties its timestamps to
its history — `Created` has all three unset, `Locked` has exactly
`locked_at` set, `Released` has `released_at` (buyer confirmation) or
`resolved_at` (resolution) set, `Refunded` has `resolved_at` set; moreover
timestamps are write-once along every successful step (a set field is
never overwritten), and a committed `resolve_refund` sets `resolved_at`
from unset to the commit time.  Variant A's record carries only
`created_at` and `released_at`, and its refund and dispute transitions
record no timestamp. -/
theorem c7_timestamps_amended :
    (∀ s : EscrowB.Escrow × Nat, EscrowB.Reach s → EscrowB.tsOk s.1) ∧
    (∀ (s s' : EscrowB.Escrow × Nat) (op : EscrowB.Op),
      EscrowB.Reach s → EscrowB.applyOp s op = (s', none) →
      (∀ t, s.1.locked_at = some t → s'.1.locked_at = some t) ∧
      (∀ t, s.1.released_at = some t → s'.1.released_at = some t) ∧
      (∀ t, s.1.resolved_at = some t → s'.1.resolved_at = some t)) ∧
    (∀ (s : EscrowB.Escrow × Nat) (s' : EscrowB.Escrow × Nat) (a : Pubkey)
        (tr : Except TransferError Unit) (now : Int),
      EscrowB.Reach s →
      EscrowB.resolve_refund s.1 s.2 a tr now = (s', none) →
      s.1.resolved_at = none ∧ s'.1.resolved_at = some now) := by
  refine ⟨EscrowB.reach_tsOk, ?_, ?_⟩
  · intro s s' op hr hstep
    rcases s' with ⟨esc', c'⟩
    have hts := EscrowB.reach_tsOk s hr
    cases op with
    | confirm b tr now =>
        rw [show EscrowB.applyOp s (EscrowB.Op.confirm b tr now) =
              EscrowB.confirm_delivery s.1 s.2 b tr now from rfl,
            EscrowB.confirm_delivery_ok_iff] at hstep
        obtain ⟨-, hst, -, h4, -⟩ := hstep
        subst h4
        obtain ⟨hcr, hlk, -, -⟩ := hts
        refine ⟨fun t ht => ht, fun t ht => ?_, fun t ht => ht⟩
        rcases hst with hst | hst
        · rw [(hcr hst).2.1] at ht; cases ht
        · rw [(hlk hst).2.1] at ht; cases ht
    | lock b now =>
        rw [show EscrowB.applyOp s (EscrowB.Op.lock b now) =
              EscrowB.lock_dispute s.1 s.2 b now from rfl,
            EscrowB.lock_dispute_ok_iff] at hstep
        obtain ⟨-, hst, h4, -⟩ := hstep
        subst h4
        obtain ⟨hcr, -, -, -⟩ := hts
        refine ⟨fun t ht => ?_, fun t ht => ht, fun t ht => ht⟩
        rw [(hcr hst).1] at ht; cases ht
    | refund a tr now =>
        rw [show EscrowB.applyOp s (EscrowB.Op.refund a tr now) =
              EscrowB.resolve_refund s.1 s.2 a tr now from rfl,
            EscrowB.resolve_refund_ok_iff] at hstep
        obtain ⟨hst, -, h4, -⟩ := hstep
        subst h4
        obtain ⟨-, hlk, -, -⟩ := hts
        refine ⟨fun t ht => ht, fun t ht => ht, fun t ht => ?_⟩
        rw [(hlk hst).2.2] at ht; cases ht
    | release a tr now =>
        rw [show EscrowB.applyOp s (EscrowB.Op.release a tr now) =
              EscrowB.resolve_release s.1 s.2 a tr now from rfl,
            EscrowB.resolve_release_ok_iff] at hstep
        obtain ⟨hst, -, h4, -⟩ := hstep
        subst h4
        obtain ⟨-, hlk, -, -⟩ := hts
        refine ⟨fun t ht => ht, fun t ht => ht, fun t ht => ?_⟩
        rw [(hlk hst).2.2] at ht; cases ht
  · intro s s' a tr now hr hok
    rcases s' with ⟨esc', c'⟩
    rw [EscrowB.resolve_refund_ok_iff] at hok
    obtain ⟨hst, -, h4, -⟩ := hok
    subst h4
    have hts := EscrowB.reach_tsOk s hr
    obtain ⟨-, hlk, -, -⟩ := hts
    exact ⟨(hlk hst).2.2, rfl⟩

/-- Witness for C7's amended theorem: the timestamp discipline evaluated at
the concrete state reached by a variant-B creation. -/
theorem c7_timestamps_amended_witness :
    EscrowB.tsOk (EscrowB.create_escrow 1 2 [65] 100 0 0) :=
  c7_timestamps_amended.1 (EscrowB.create_escrow 1 2 [65] 100 0 0, 0)
    (EscrowB.Reach.create 1 2 [65] 100 0 0)

/-- C8 counterexample: the "already done" error is not distinguishable from
the "not allowed" error.  In variant A, replaying `release_escrow` on a
record already `Released` (a stale retry) returns
`program InvalidState` — exactly the same error value that a brand-new
precondition violation (releasing a `Disputed` record that was never
released) returns. -/
theorem c8_stale_retry_error_counterexample :
    ((EscrowA.release_escrow
        { buyer := 1, seller := 2, order_id := [65], amount := 100,
          state := EscrowA.EscrowState.Released, bump := 0, created_at := 0,
          released_at := some 5 } 0 1 (Except.ok ()) 9).2 =
      some (EscrowA.ProgramError.program EscrowA.EscrowError.InvalidState)) ∧
    ((EscrowA.release_escrow
        { buyer := 1, seller := 2, order_id := [66], amount := 100,
          state := EscrowA.EscrowState.Disputed, bump := 0, created_at := 0,
          released_at := none } 100 1 (Except.ok ()) 9).2 =
      some (EscrowA.ProgramError.program EscrowA.EscrowError.InvalidState)) := by
  refine ⟨by decide, by decide⟩

/-- C8 amended: re-invoking an operation once its target state is already
reached always returns an error — never a silent success — but the error
is the operation's generic state error (`InvalidState` in variant A,
`InvalidEscrowStatus`/`EscrowNotLocked` in variant B), the same value
returned for a brand-new precondition violation, so the caller cannot
distinguish "already done" from "not allowed". -/
theorem c8_stale_retry_errors_amended :
    (∀ (escrow : EscrowA.Escrow) (custody : Nat) (b : Pubkey)
        (tr : Except TransferError Unit) (now : Int),
      escrow.state = EscrowA.EscrowState.Released →
      (EscrowA.release_escrow escrow custody b tr now).2 =
        some (EscrowA.ProgramError.program EscrowA.EscrowError.InvalidState)) ∧
    (∀ (escrow : EscrowA.Escrow) (custody : Nat) (a : Pubkey)
        (tr : Except TransferError Unit),
      escrow.state = EscrowA.EscrowState.Refunded →
      (EscrowA.refund_escrow escrow custody a tr).2 =
        some (EscrowA.ProgramError.program EscrowA.EscrowError.InvalidState)) ∧
    (∀ (escrow : EscrowA.Escrow) (custody : Nat) (a : Pubkey),
      escrow.state = EscrowA.EscrowState.Disputed →
      (EscrowA.dispute_escrow escrow custody a).2 =
        some (EscrowA.ProgramError.program EscrowA.EscrowError.InvalidState)) ∧
    (∀ (escrow : EscrowB.Escrow) (custody : Nat)
        (tr : Except TransferError Unit) (now : Int),
      escrow.status = EscrowB.EscrowStatus.Released →
      (EscrowB.confirm_delivery escrow custody escrow.buyer tr now).2 =
        some (EscrowB.ProgramError.program
          EscrowB.EscrowError.InvalidEscrowStatus)) ∧
    (∀ (escrow : EscrowB.Escrow) (custody : Nat) (now : Int),
      escrow.status = EscrowB.EscrowStatus.Locked →
      (EscrowB.lock_dispute escrow custody escrow.buyer now).2 =
        some (EscrowB.ProgramError.program
          EscrowB.EscrowError.InvalidEscrowStatus)) ∧
    (∀ (escrow : EscrowB.Escrow) (custody : Nat) (a : Pubkey)
        (tr : Except TransferError Unit) (now : Int),
      escrow.status = EscrowB.EscrowStatus.Refunded →
      (EscrowB.resolve_refund escrow custody a tr now).2 =
        some (EscrowB.ProgramError.program
          EscrowB.EscrowError.EscrowNotLocked)) ∧
    (∀ (escrow : EscrowB.Escrow) (custody : Nat) (a : Pubkey)
        (tr : Except TransferError Unit) (now : Int),
      escrow.status = EscrowB.EscrowStatus.Released →
      (EscrowB.resolve_release escrow custody a tr now).2 =
        some (EscrowB.ProgramError.program
          EscrowB.EscrowError.EscrowNotLocked)) := by
  refine ⟨?_, ?_, ?_, ?_, ?_, ?_, ?_⟩
  · intro escrow custody b tr now h
    simp [EscrowA.release_escrow, h]
  · intro escrow custody a tr h
    simp [EscrowA.refund_escrow, h]
  · intro escrow custody a h
    simp [EscrowA.dispute_escrow, h]
  · intro escrow custody tr now h
    simp [EscrowB.confirm_delivery, h]
  · intro escrow custody now h
    simp [EscrowB.lock_dispute, h]
  · intro escrow custody a tr now h
    simp [EscrowB.resolve_refund, h]
  · intro escrow custody a tr now h
    simp [EscrowB.resolve_release, h]

/-- Witness for C8's amended theorem: replaying `release_escrow` on a
concrete already-`Released` variant-A record and `resolve_refund` on a
concrete already-`Refunded` variant-B record both yield their generic
state errors. -/
theorem c8_stale_retry_errors_amended_witness :
    ((EscrowA.release_escrow
        { buyer := 1, seller := 2, order_id := [65], amount := 100,
          state := EscrowA.EscrowState.Released, bump := 0, created_at := 0,
          released_at := some 5 } 0 1 (Except.ok ()) 9).2 =
      some (EscrowA.ProgramError.program EscrowA.EscrowError.InvalidState)) ∧
    ((EscrowB.resolve_refund
        { buyer := 1, seller := 2, order_id := [65], amount := 100,
          status := EscrowB.EscrowStatus.Refunded, bump := 0, created_at := 0,
          locked_at := some 3, released_at := none, resolved_at := some 5 }
        0 9 (Except.ok ()) 11).2 =
      some (EscrowB.ProgramError.program
        EscrowB.EscrowError.EscrowNotLocked)) :=
  ⟨c8_stale_retry_errors_amended.1
      { buyer := 1, seller := 2, order_id := [65], amount := 100,
        state := EscrowA.EscrowState.Released, bump := 0, created_at := 0,
        released_at := some 5 } 0 1 (Except.ok ()) 9 rfl,
   c8_stale_retry_errors_amended.2.2.2.2.2.1
      { buyer := 1, seller := 2, order_id := [65], amount := 100,
        status := EscrowB.EscrowStatus.Refunded, bump := 0, created_at := 0,
        locked_at := some 3, released_at := none, resolved_at := some 5 }
      0 9 (Except.ok ()) 11 rfl⟩

/-- C9 counterexample: neither variant's `create_escrow` checks the
order-id length.  A 51-byte order id — longer than the claimed 50-byte
bound — is accepted by both variants and stored verbatim, and the
resulting fresh record even fits the fixed `8 + Escrow::LEN` account
allocation, because its unset optional timestamps serialize smaller than
the space `Escrow::LEN` budgets for them. -/
theorem c9_order_id_length_counterexample :
    (EscrowA.create_escrow 1 2 (List.replicate 51 65) 5 0 (Except.ok ()) 0 =
      Except.ok ({ buyer := 1, seller := 2,
                   order_id := List.replicate 51 65, amount := 5,
                   state := EscrowA.EscrowState.Locked, bump := 0,
                   created_at := 0, released_at := none }, 5)) ∧
    (List.replicate 51 (65 : Nat)).length = 51 ∧
    ¬ ((List.replicate 51 (65 : Nat)).length ≤ 50) ∧
    EscrowA.serializedSize
      { buyer := 1, seller := 2, order_id := List.replicate 51 65,
        amount := 5, state := EscrowA.EscrowState.Locked, bump := 0,
        created_at := 0, released_at := none } ≤ EscrowA.Escrow.LEN ∧
    (EscrowB.create_escrow 1 2 (List.replicate 51 65) 5 0 0).order_id.length
      = 51 ∧
    EscrowB.serializedSize (EscrowB.create_escrow 1 2 (List.replicate 51 65) 5 0 0)
      ≤ EscrowB.Escrow.LEN := by
  refine ⟨rfl, by decide, by decide, by decide, by decide, by decide⟩

/-- C9 amended: `create_escrow` performs no explicit order-id length check
in either variant and stores the id verbatim, so records with order ids
over 50 bytes can be created.  The figure 50 is only the string budget
inside `Escrow::LEN`; the fixed allocation that constant defines admits a
freshly created record (optional timestamps unset) exactly when the order
id is at most 58 bytes (variant A) resp. 74 bytes (variant B). -/
theorem c9_order_id_bound_amended :
    (∀ (b s : Pubkey) (oid : List Nat) (amount bump : Nat) (now : Int),
      (EscrowB.create_escrow b s oid amount bump now).order_id = oid) ∧
    (∀ (b s : Pubkey) (oid : List Nat) (amount bump : Nat) (now : Int)
        (esc : EscrowA.Escrow) (custody : Nat),
      EscrowA.create_escrow b s oid amount bump (Except.ok ()) now =
        Except.ok (esc, custody) → esc.order_id = oid) ∧
    (∀ e : EscrowA.Escrow, e.released_at = none →
      (EscrowA.serializedSize e ≤ EscrowA.Escrow.LEN ↔
        e.order_id.length ≤ 58)) ∧
    (∀ e : EscrowB.Escrow,
      e.locked_at = none → e.released_at = none → e.resolved_at = none →
      (EscrowB.serializedSize e ≤ EscrowB.Escrow.LEN ↔
        e.order_id.length ≤ 74)) := by
  refine ⟨?_, ?_, ?_, ?_⟩
  · intro b s oid amount bump now
    rfl
  · intro b s oid amount bump now esc custody h
    simp only [EscrowA.create_escrow, Except.ok.injEq, Prod.mk.injEq] at h
    rw [← h.1]
  · intro e h
    unfold EscrowA.serializedSize EscrowA.Escrow.LEN
    rw [h]
    simp only []
    omega
  · intro e h1 h2 h3
    unfold EscrowB.serializedSize EscrowB.Escrow.LEN
    rw [h1, h2, h3]
    simp only []
    omega

/-- Witness for C9's amended theorem: the allocation-fit boundary evaluated
at a concrete fresh variant-A record with a one-byte order id, and the
verbatim-storage conclusion for a concrete variant-A creation. -/
theorem c9_order_id_bound_amended_witness :
    (EscrowA.serializedSize
        { buyer := 1, seller := 2, order_id := [65], amount := 5,
          state := EscrowA.EscrowState.Locked, bump := 0, created_at := 0,
          released_at := none } ≤ EscrowA.Escrow.LEN ↔
      ([65] : List Nat).length ≤ 58) ∧
    ({ buyer := 1, seller := 2, order_id := [65], amount := 5,
       state := EscrowA.EscrowState.Locked, bump := 0, created_at := 0,
       released_at := none } : EscrowA.Escrow).order_id = [65] :=
  ⟨c9_order_id_bound_amended.2.2.1
      { buyer := 1, seller := 2, order_id := [65], amount := 5,
        state := EscrowA.EscrowState.Locked, bump := 0, created_at := 0,
        released_at := none } rfl,
   c9_order_id_bound_amended.2.1 1 2 [65] 5 0 0
      { buyer := 1, seller := 2, order_id := [65], amount := 5,
        state := EscrowA.EscrowState.Locked, bump := 0, created_at := 0,
        released_at := none } 5 rfl⟩

/-- C10: neither variant places a lower bound on `amount`.  For every order
id, creating an escrow with `amount = 0` succeeds and stores amount `0`
(variant A enters `Locked` with custody `0`, variant B enters `Created`),
and the subsequent release (`release_escrow` by the buyer in A,
`confirm_delivery` by the buyer in B) or refund (`refund_escrow` by the
seller in A) also succeeds, performing a zero-value transfer that leaves
custody at `0`. -/
theorem c10_zero_amount_allowed :
    (∀ (b s : Pubkey) (oid : List Nat) (bump : Nat) (now now2 : Int),
      EscrowA.create_escrow b s oid 0 bump (Except.ok ()) now =
        Except.ok ({ buyer := b, seller := s, order_id := oid, amount := 0,
                     state := EscrowA.EscrowState.Locked, bump := bump,
                     created_at := now, released_at := none }, 0) ∧
      EscrowA.release_escrow
          { buyer := b, seller := s, order_id := oid, amount := 0,
            state := EscrowA.EscrowState.Locked, bump := bump,
            created_at := now, released_at := none } 0 b (Except.ok ()) now2 =
        (({ buyer := b, seller := s, order_id := oid, amount := 0,
            state := EscrowA.EscrowState.Released, bump := bump,
            created_at := now, released_at := some now2 }, 0), none) ∧
      EscrowA.refund_escrow
          { buyer := b, seller := s, order_id := oid, amount := 0,
            state := EscrowA.EscrowState.Locked, bump := bump,
            created_at := now, released_at := none } 0 s (Except.ok ()) =
        (({ buyer := b, seller := s, order_id := oid, amount := 0,
            state := EscrowA.EscrowState.Refunded, bump := bump,
            created_at := now, released_at := none }, 0), none)) ∧
    (∀ (b s : Pubkey) (oid : List Nat) (bump : Nat) (now now2 : Int),
      (EscrowB.create_escrow b s oid 0 bump now).amount = 0 ∧
      (EscrowB.create_escrow b s oid 0 bump now).status =
        EscrowB.EscrowStatus.Created ∧
      EscrowB.confirm_delivery (EscrowB.create_escrow b s oid 0 bump now)
          0 b (Except.ok ()) now2 =
        (({ buyer := b, seller := s, order_id := oid, amount := 0,
            status := EscrowB.EscrowStatus.Released, bump := bump,
            created_at := now, locked_at := none,
            released_at := some now2, resolved_at := none }, 0), none)) := by
  refine ⟨?_, ?_⟩
  · intro b s oid bump now now2
    refine ⟨rfl, ?_, ?_⟩
    · simp [EscrowA.release_escrow]
    · simp [EscrowA.refund_escrow]
  · intro b s oid bump now now2
    refine ⟨rfl, rfl, ?_⟩
    simp [EscrowB.confirm_delivery, EscrowB.create_escrow]
